import Mathlib

/-!
Shallow embedding of `src/crates/ui/src/input/number_input.rs` from the
components repository.  The widget wraps a child text input, forwards the
child's input-change events, and emits step events for increment/decrement
triggers unless the child is disabled.  Stateful methods are embedded as pure
state transformers returning the new state together with the events they emit
(the program emits events only via explicit emit calls, which the embedding
mirrors one for one).  Types declared elsewhere in the repository (the ui
crate's `Size`, `TextInput` and `InputEvent`) are not under `src/` and are
modelled from the spec where noted.
-/

/-- Modelled from the spec: the ui crate's display `Size` tiers (the `Size`
type itself is not under `src/`; the spec speaks of a "display-size setting"
with two small tiers and the remaining larger tiers). -/
inductive Size
  | XSmall
  | Small
  | Medium
  | Large
deriving DecidableEq

/-- Modelled from the spec: the child text-entry widget's configuration state
(the `TextInput` source is not under `src/`).  The spec lists its builder
configuration surface as placeholder text, validation pattern, current text,
disabled flag and display size, each held independently. -/
structure TextInput where
  disabled : Bool
  placeholder : String
  pattern : String
  text : String
  size : Size
deriving DecidableEq

/-- Modelled from the spec: `TextInput::set_placeholder` writes the
placeholder field of the child and nothing else. -/
def TextInput.set_placeholder (i : TextInput) (p : String) : TextInput :=
  { i with placeholder := p }

/-- Modelled from the spec: `TextInput::set_pattern` writes the validation
pattern field of the child and nothing else.  The pattern is kept as its
source string. -/
def TextInput.set_pattern (i : TextInput) (p : String) : TextInput :=
  { i with pattern := p }

/-- Modelled from the spec: `TextInput::set_text` writes the current text
field of the child and nothing else. -/
def TextInput.set_text (i : TextInput) (t : String) : TextInput :=
  { i with text := t }

/-- Modelled from the spec: `TextInput::set_disabled` writes the disabled
flag of the child and nothing else. -/
def TextInput.set_disabled (i : TextInput) (d : Bool) : TextInput :=
  { i with disabled := d }

/-- Modelled from the spec: `TextInput::set_size` writes the display-size
field of the child and nothing else. -/
def TextInput.set_size (i : TextInput) (sz : Size) : TextInput :=
  { i with size := sz }

/-- Modelled from the spec: the child input's event type (`InputEvent`, not
under `src/`); the spec calls these the child's input-change notifications,
carrying the changed text as payload. -/
inductive InputEvent
  | Change (text : String)
  | PressEnter
  | Focus
  | Blur
deriving DecidableEq

/-- `StepAction` from number_input.rs: two-variant tag, no payload
(source order: Decrement, Increment). -/
inductive StepAction
  | Decrement
  | Increment
deriving DecidableEq

/-- `NumberInputEvent` from number_input.rs: forwards either a child input
event or a step action. -/
inductive NumberInputEvent
  | Input (event : InputEvent)
  | Step (action : StepAction)
deriving DecidableEq

/-- The action types generated by the actions declaration
`actions!(number_input, [Increment, Decrement])`. -/
inductive NumberInputAction
  | Increment
  | Decrement
deriving DecidableEq

/-- A key binding as registered with `cx.bind_keys`: key stroke, bound
action, and optional key-context restriction. -/
structure KeyBinding where
  key : String
  action : NumberInputAction
  context : Option String
deriving DecidableEq

/-- `KEY_CONTENT` constant from number_input.rs. -/
def KEY_CONTENT : String := "NumberInput"

/-- The `init` function of number_input.rs: the list of key bindings passed
to `cx.bind_keys`. -/
def init : List KeyBinding :=
  [ { key := "up", action := NumberInputAction.Increment, context := some KEY_CONTENT }
  , { key := "down", action := NumberInputAction.Decrement, context := some KEY_CONTENT } ]

/-- The default validation pattern source string built in `NumberInput::new`:
the Rust literal is the raw string `^-?(\d+)?\.?(\d+)?$`. -/
def DEFAULT_NUMBER_PATTERN : String := "^-?(\\d+)?\\.?(\\d+)?$"

/-- Consume a maximal (possibly empty) run of ASCII digits, the greedy
reading of the regex pieces `(\d+)?` (equivalently `\d*`). -/
def dropDigits : List Char → List Char
  | [] => []
  | c :: cs => if c.isDigit then dropDigits cs else c :: cs

/-- Matcher for the anchored default pattern `^-?(\d+)?\.?(\d+)?$` used by
`regex::Regex::is_match`: an optional leading minus, an optional run of
digits, an optional dot, an optional run of digits, and nothing else.  The
deterministic greedy scan recognises exactly this regular language: a digit
run followed by anything the pattern still accepts can always be taken
maximally, so greediness loses no match. -/
def matchesDefaultPattern (s : String) : Bool :=
  let cs0 := s.toList
  let cs1 := match cs0 with
    | '-' :: rest => rest
    | other => other
  let cs2 := dropDigits cs1
  let cs3 := match cs2 with
    | '.' :: rest => rest
    | other => other
  let cs4 := dropDigits cs3
  cs4.isEmpty

/-- The `NumberInput` widget state from number_input.rs: the child input
entity's state, the widget's own display size, and the one-time size-sync
flag.  The `_subscriptions` field only retains the subscription handle; the
subscribed handler itself is embedded as `NumberInput.on_child_input`. -/
structure NumberInput where
  input : TextInput
  size : Size
  synced_size : Bool
deriving DecidableEq

/-- `NumberInput::new`: builds the child via `TextInput::new(window, cx)`
(outside `src/`, so its result is the parameter `input0`) then installs the
default pattern on it; the own size starts at `Size::default()` (the default
value lives outside `src/`, so it is the parameter `defaultSize`) and the
size-sync flag starts false.  The appearance flag set by `.appearance(false)`
is presentation-only and not part of the modelled configuration. -/
def NumberInput.new (input0 : TextInput) (defaultSize : Size) : NumberInput :=
  { input := input0.set_pattern DEFAULT_NUMBER_PATTERN
  , size := defaultSize
  , synced_size := false }

/-- The subscription handler installed in `NumberInput::new`: on a child
`InputEvent` it emits `NumberInputEvent::Input(event.clone())` and touches no
state. -/
def NumberInput.on_child_input (s : NumberInput) (event : InputEvent) :
    NumberInput × List NumberInputEvent :=
  (s, [NumberInputEvent.Input event])

/-- Builder method `NumberInput::placeholder`: updates the child's
placeholder. -/
def NumberInput.placeholder (s : NumberInput) (p : String) : NumberInput :=
  { s with input := s.input.set_placeholder p }

/-- Builder method `NumberInput::pattern`: updates the child's validation
pattern. -/
def NumberInput.pattern (s : NumberInput) (p : String) : NumberInput :=
  { s with input := s.input.set_pattern p }

/-- `NumberInput::set_value`: updates the child's current text. -/
def NumberInput.set_value (s : NumberInput) (t : String) : NumberInput :=
  { s with input := s.input.set_text t }

/-- `NumberInput::set_disabled`: updates the child's disabled flag. -/
def NumberInput.set_disabled (s : NumberInput) (d : Bool) : NumberInput :=
  { s with input := s.input.set_disabled d }

/-- `NumberInput::set_placeholder` (the non-builder variant): updates the
child's placeholder. -/
def NumberInput.set_placeholder (s : NumberInput) (t : String) : NumberInput :=
  { s with input := s.input.set_placeholder t }

/-- `NumberInput::on_step`: if the child input is disabled, return without
emitting; otherwise emit exactly one `NumberInputEvent::Step(action)`.  The
method never mutates the widget state. -/
def NumberInput.on_step (s : NumberInput) (action : StepAction) :
    NumberInput × List NumberInputEvent :=
  if s.input.disabled then
    (s, [])
  else
    (s, [NumberInputEvent.Step action])

/-- `NumberInput::on_action_increment`: dispatches to
`on_step(StepAction::Increment)`. -/
def NumberInput.on_action_increment (s : NumberInput) :
    NumberInput × List NumberInputEvent :=
  s.on_step StepAction.Increment

/-- `NumberInput::on_action_decrement`: dispatches to
`on_step(StepAction::Decrement)`. -/
def NumberInput.on_action_decrement (s : NumberInput) :
    NumberInput × List NumberInputEvent :=
  s.on_step StepAction.Decrement

/-- Public method `NumberInput::increment`: calls `on_action_increment`. -/
def NumberInput.increment (s : NumberInput) : NumberInput × List NumberInputEvent :=
  s.on_action_increment

/-- Public method `NumberInput::decrement`: calls `on_action_decrement`. -/
def NumberInput.decrement (s : NumberInput) : NumberInput × List NumberInputEvent :=
  s.on_action_decrement

/-- The ways an increment or decrement can be triggered in the source: the
two public methods, the two dispatched actions (also reached from the "up"
and "down" key bindings of `init`), and the two rendered button click
handlers. -/
inductive Trigger
  | method_increment
  | method_decrement
  | action_increment
  | action_decrement
  | key_up
  | key_down
  | click_minus
  | click_plus
deriving DecidableEq

/-- Routing of each trigger as written in the source: the public methods call
the action handlers, the key bindings dispatch the actions, and the minus and
plus buttons call `on_step` with Decrement and Increment respectively. -/
def NumberInput.trigger (s : NumberInput) : Trigger → NumberInput × List NumberInputEvent
  | Trigger.method_increment => s.increment
  | Trigger.method_decrement => s.decrement
  | Trigger.action_increment => s.on_action_increment
  | Trigger.action_decrement => s.on_action_decrement
  | Trigger.key_up => s.on_action_increment
  | Trigger.key_down => s.on_action_decrement
  | Trigger.click_minus => s.on_step StepAction.Decrement
  | Trigger.click_plus => s.on_step StepAction.Increment

/-- Result of a size-affecting method: the new widget state, the
`NumberInputEvent`s emitted (these methods contain no emit call, which the
embedding records as an explicit empty emission list), and how many
`set_size` calls were performed on the child `TextInput`. -/
structure SizeEffect where
  state : NumberInput
  emitted : List NumberInputEvent
  child_set_size_count : Nat
deriving DecidableEq

/-- `NumberInput::sync_size_to_input_if_needed`: if the flag is not yet set,
propagate the own size to the child via the child's `set_size` and set the
flag; otherwise do nothing. -/
def NumberInput.sync_size_to_input_if_needed (s : NumberInput) : SizeEffect :=
  if !s.synced_size then
    { state := { s with input := s.input.set_size s.size, synced_size := true }
    , emitted := []
    , child_set_size_count := 1 }
  else
    { state := s, emitted := [], child_set_size_count := 0 }

/-- `NumberInput::set_size`: stores the new size in the own field, then runs
the one-time sync. -/
def NumberInput.set_size (s : NumberInput) (sz : Size) : SizeEffect :=
  ({ s with size := sz }).sync_size_to_input_if_needed

/-- The observable structure of the element built by `Render::render`: the
key context placed on the flex row, the input size styling, whether the
focused outline is applied, the sizes given to the minus and plus buttons,
and the step action each button's click handler passes to `on_step`. -/
structure RenderedNumberInput where
  key_context : String
  input_size : Size
  focused_outline : Bool
  minus_button_size : Size
  plus_button_size : Size
  minus_click : StepAction
  plus_click : StepAction
deriving DecidableEq

/-- The element construction part of `render`, after the size sync: `btn_size`
collapses XSmall and Small to XSmall and everything else to Small, and both
buttons receive it; the minus button's click handler steps Decrement and the
plus button's steps Increment. -/
def NumberInput.render_view (s : NumberInput) (focused : Bool) : RenderedNumberInput :=
  let btn_size := match s.size with
    | Size.XSmall | Size.Small => Size.XSmall
    | _ => Size.Small
  { key_context := KEY_CONTENT
  , input_size := s.size
  , focused_outline := focused
  , minus_button_size := btn_size
  , plus_button_size := btn_size
  , minus_click := StepAction.Decrement
  , plus_click := StepAction.Increment }

/-- `Render::render` for `NumberInput`: reads the focus state, performs the
one-time size sync, then builds the element from the resulting state. -/
def NumberInput.render (s : NumberInput) (focused : Bool) :
    SizeEffect × RenderedNumberInput :=
  let e := s.sync_size_to_input_if_needed
  (e, e.state.render_view focused)

/-- A call that can perform the size sync: a render pass or an explicit
`set_size`. -/
inductive SizeCall
  | render (focused : Bool)
  | set_size (sz : Size)
deriving DecidableEq

/-- Run one size-affecting call. -/
def NumberInput.size_call (s : NumberInput) : SizeCall → SizeEffect
  | SizeCall.render focused => (s.render focused).1
  | SizeCall.set_size sz => s.set_size sz

/-- Run a sequence of render/set_size calls, recording for each call how many
`set_size` propagations were performed on the child. -/
def NumberInput.sync_trace : NumberInput → List SizeCall → List Nat
  | _, [] => []
  | s, c :: cs =>
    (s.size_call c).child_set_size_count :: (s.size_call c).state.sync_trace cs

/-- A concrete child input state used to instantiate witnesses. -/
def exTextInput : TextInput :=
  { disabled := false, placeholder := "", pattern := DEFAULT_NUMBER_PATTERN
  , text := "", size := Size.Medium }

/-- A concrete widget whose child is disabled. -/
def exDisabled : NumberInput :=
  { input := { exTextInput with disabled := true }
  , size := Size.Medium, synced_size := false }

/-- A concrete widget whose child is enabled. -/
def exEnabled : NumberInput :=
  { input := exTextInput, size := Size.Medium, synced_size := false }

/-- A concrete widget whose one-time size sync has already happened. -/
def exSynced : NumberInput :=
  { input := exTextInput, size := Size.Small, synced_size := true }

/-- Helper: a size-affecting call on a not-yet-synced widget propagates the
size to the child exactly once and leaves the widget synced. -/
theorem size_call_unsynced (s : NumberInput) (h : s.synced_size = false) (c : SizeCall) :
    (s.size_call c).child_set_size_count = 1 ∧ (s.size_call c).state.synced_size = true := by
  cases c <;>
    simp [NumberInput.size_call, NumberInput.render, NumberInput.set_size,
      NumberInput.sync_size_to_input_if_needed, h]

/-- Helper: a size-affecting call on an already-synced widget performs no
propagation and keeps the widget synced. -/
theorem size_call_synced (s : NumberInput) (h : s.synced_size = true) (c : SizeCall) :
    (s.size_call c).child_set_size_count = 0 ∧ (s.size_call c).state.synced_size = true := by
  cases c <;>
    simp [NumberInput.size_call, NumberInput.render, NumberInput.set_size,
      NumberInput.sync_size_to_input_if_needed, h]

/-- Helper: once the widget is synced, every later size-affecting call
performs zero propagations. -/
theorem sync_trace_synced (cs : List SizeCall) :
    ∀ s : NumberInput, s.synced_size = true → s.sync_trace cs = cs.map (fun _ => 0) := by
  induction cs with
  | nil => intro s _; rfl
  | cons c cs ih =>
    intro s h
    have h1 := size_call_synced s h c
    simp only [NumberInput.sync_trace, List.map, h1.1, List.cons.injEq, true_and]
    exact ih _ h1.2

/-- Claim C1: while the child input is disabled, every increment or decrement
trigger (public method, dispatched action, key binding, or button click)
returns from on_step without emitting any event and without changing any
state. -/
theorem step_guard_disabled (s : NumberInput) (t : Trigger)
    (h : s.input.disabled = true) : s.trigger t = (s, []) := by
  cases t <;>
    simp [NumberInput.trigger, NumberInput.increment, NumberInput.decrement,
      NumberInput.on_action_increment, NumberInput.on_action_decrement,
      NumberInput.on_step, h]

/-- Witness for C1: the disabled example widget drops a plus-button click. -/
theorem step_guard_disabled_witness :
    exDisabled.input.disabled = true ∧ exDisabled.trigger Trigger.click_plus = (exDisabled, []) :=
  ⟨rfl, step_guard_disabled exDisabled Trigger.click_plus rfl⟩

/-- Claim C2: while the child input is enabled, every trigger emits exactly
one Step event whose action tag matches the trigger (Increment for the
increment method, the Increment action, the "up" key and the plus button;
Decrement otherwise), and the state is unchanged. -/
theorem step_guard_enabled (s : NumberInput) (t : Trigger)
    (h : s.input.disabled = false) :
    (s.trigger t).2 = [NumberInputEvent.Step (match t with
        | Trigger.method_increment | Trigger.action_increment
        | Trigger.key_up | Trigger.click_plus => StepAction.Increment
        | _ => StepAction.Decrement)]
      ∧ (s.trigger t).1 = s := by
  cases t <;>
    simp [NumberInput.trigger, NumberInput.increment, NumberInput.decrement,
      NumberInput.on_action_increment, NumberInput.on_action_decrement,
      NumberInput.on_step, h]

/-- Witness for C2: the enabled example widget emits exactly one
Step(Increment) on the "up" key trigger. -/
theorem step_guard_enabled_witness :
    exEnabled.input.disabled = false ∧
      ((exEnabled.trigger Trigger.key_up).2 = [NumberInputEvent.Step StepAction.Increment]
        ∧ (exEnabled.trigger Trigger.key_up).1 = exEnabled) :=
  ⟨rfl, step_guard_enabled exEnabled Trigger.key_up rfl⟩

/-- Claim C3: the subscription installed at construction forwards every child
input-change event as exactly one NumberInputEvent.Input with the identical
payload, and changes no state. -/
theorem input_event_forwarded (s : NumberInput) (e : InputEvent) :
    s.on_child_input e = (s, [NumberInputEvent.Input e]) := rfl

/-- Claim C5: the default validation pattern accepts "-12.5", "12", ".5" and
"-.5" and rejects "12.5.6", "--1" and "abc"; the installed pattern source is
the anchored string. -/
theorem default_pattern_examples :
    DEFAULT_NUMBER_PATTERN = "^-?(\\d+)?\\.?(\\d+)?$"
      ∧ matchesDefaultPattern "-12.5" = true
      ∧ matchesDefaultPattern "12" = true
      ∧ matchesDefaultPattern ".5" = true
      ∧ matchesDefaultPattern "-.5" = true
      ∧ matchesDefaultPattern "12.5.6" = false
      ∧ matchesDefaultPattern "--1" = false
      ∧ matchesDefaultPattern "abc" = false := by
  refine ⟨rfl, ?_, ?_, ?_, ?_, ?_, ?_, ?_⟩ <;> decide

/-- Claim C10: since every group of the default pattern is optional, it also
accepts the degenerate strings "", "-", "." and "-.". -/
theorem default_pattern_degenerate :
    matchesDefaultPattern "" = true
      ∧ matchesDefaultPattern "-" = true
      ∧ matchesDefaultPattern "." = true
      ∧ matchesDefaultPattern "-." = true := by
  refine ⟨?_, ?_, ?_, ?_⟩ <;> decide

/-- Claim C4: for every freshly constructed NumberInput and any sequence of
render and set_size calls, the size is propagated to the child TextInput
exactly once: the first call performs exactly one child set_size propagation
and every later call performs none. -/
theorem size_synced_exactly_once (input0 : TextInput) (defaultSize : Size)
    (cs : List SizeCall) :
    (NumberInput.new input0 defaultSize).sync_trace cs =
      match cs with
      | [] => []
      | _ :: rest => 1 :: rest.map (fun _ => 0) := by
  cases cs with
  | nil => rfl
  | cons c rest =>
    have h0 : (NumberInput.new input0 defaultSize).synced_size = false := rfl
    have h1 := size_call_unsynced _ h0 c
    simp only [NumberInput.sync_trace, h1.1, List.cons.injEq, true_and]
    exact sync_trace_synced rest _ h1.2

/-- Claim C6: the builder configuration methods placeholder, pattern and
set_value applied in any of the six orders to the same widget yield the
identical final state, and in particular the identical final child TextInput
configuration. -/
theorem builder_methods_commute (s : NumberInput) (p q v : String) :
    ((s.placeholder p).pattern q).set_value v = ((s.pattern q).placeholder p).set_value v
      ∧ ((s.placeholder p).pattern q).set_value v = ((s.placeholder p).set_value v).pattern q
      ∧ ((s.placeholder p).pattern q).set_value v = ((s.pattern q).set_value v).placeholder p
      ∧ ((s.placeholder p).pattern q).set_value v = ((s.set_value v).placeholder p).pattern q
      ∧ ((s.placeholder p).pattern q).set_value v = ((s.set_value v).pattern q).placeholder p :=
  ⟨rfl, rfl, rfl, rfl, rfl⟩

/-- Claim C7: init registers exactly two key bindings, "up" bound to the
Increment action and "down" bound to the Decrement action, both scoped to the
named context "NumberInput", which is the same key context the rendered
element declares. -/
theorem keybindings_registered :
    init.length = 2
      ∧ init = [ { key := "up", action := NumberInputAction.Increment
                 , context := some "NumberInput" }
               , { key := "down", action := NumberInputAction.Decrement
                 , context := some "NumberInput" } ]
      ∧ init.all (fun kb => kb.context == some KEY_CONTENT) = true
      ∧ ∀ (s : NumberInput) (focused : Bool),
          ((s.render focused).2).key_context = "NumberInput" :=
  ⟨rfl, rfl, rfl, fun _ _ => rfl⟩

/-- Claim C8: during render the stored size is mapped to one of exactly two
button sizes, XSmall when the stored size is XSmall or Small and Small for
every other size, and the minus and plus buttons receive the same mapped
size. -/
theorem button_size_two_tiers (s : NumberInput) (focused : Bool) :
    ((s.render focused).2).minus_button_size =
        (if s.size = Size.XSmall ∨ s.size = Size.Small then Size.XSmall else Size.Small)
      ∧ ((s.render focused).2).plus_button_size = ((s.render focused).2).minus_button_size := by
  cases hb : s.synced_size <;> cases hv : s.size <;>
    simp [NumberInput.render, NumberInput.render_view,
      NumberInput.sync_size_to_input_if_needed, hb, hv]

/-- Claim C9: once the one-time size sync has happened, set_size updates only
the widget's own stored size, emits no event, performs no child set_size
call, and leaves the child TextInput unchanged. -/
theorem set_size_after_sync (s : NumberInput) (sz : Size) (h : s.synced_size = true) :
    s.set_size sz = { state := { s with size := sz }, emitted := []
                    , child_set_size_count := 0 }
      ∧ (s.set_size sz).state.input = s.input := by
  constructor <;>
    simp [NumberInput.set_size, NumberInput.sync_size_to_input_if_needed, h]

/-- Witness for C9: the already-synced example widget takes a set_size to
Large that changes only its own size field. -/
theorem set_size_after_sync_witness :
    exSynced.synced_size = true ∧
      (exSynced.set_size Size.Large = { state := { exSynced with size := Size.Large }
                                      , emitted := [], child_set_size_count := 0 }
        ∧ (exSynced.set_size Size.Large).state.input = exSynced.input) :=
  ⟨rfl, set_size_after_sync exSynced Size.Large rfl⟩
